import Mathlib

/-!
Shallow embedding of the M&A classifier demo front-end
(`src/pages/1_Demo.py`): the classification client (`classify_text`,
`classify_pdf`), the result renderer (`render_result`), and the
submission handlers of the Demo page (title/text and title/file
validation before any network call).

The HTTP transport (`requests.post`) is modelled as an oracle
`net : Request → HttpOutcome`; the Streamlit secrets store is an oracle
`secrets : String → Option String`.  JSON values are modelled by an
inductive `Json` type with rational numbers standing for JSON numbers.
Displayed error messages (`st.error`) are collected in a list; rendered
widgets (`st.success`, `st.metric`, `st.info`, `st.caption`) are
collected as a list of `RenderItem`s.
-/

/-- JSON values.  Numbers are modelled as rationals. -/
inductive Json : Type where
  | null : Json
  | bool : Bool → Json
  | num : ℚ → Json
  | str : String → Json
  | arr : List Json → Json
  | obj : List (String × Json) → Json

/-- Whether a JSON value is a JSON object (a Python `dict`). -/
def Json.isObj : Json → Bool
  | .obj _ => true
  | _ => false

/-- Python truthiness of `result.get(key)`: `None` (absent key), `False`,
`0`, `""`, `[]` and `{}` are falsy, everything else truthy. -/
def truthy : Option Json → Bool
  | none => false
  | some .null => false
  | some (.bool b) => b
  | some (.num q) => if q = 0 then false else true
  | some (.str s) => if s = "" then false else true
  | some (.arr l) => !l.isEmpty
  | some (.obj l) => !l.isEmpty

/-- A Python dict with JSON values, as handed to `render_result`. -/
abbrev RDict := List (String × Json)

/-- `result.get(key)` — `None` when the key is absent. -/
def jget (r : RDict) (k : String) : Option Json :=
  r.lookup k

/-- `result.get(key, default)`. -/
def jgetD (r : RDict) (k : String) (d : Json) : Json :=
  (jget r k).getD d

/-- Round `q * 100` to the nearest integer, ties to even — the rounding
used by Python `format` with the `.0%` presentation — computed directly
on the numerator and denominator of `q` with integer arithmetic
(`Int.fdiv` is floor division, so `f = ⌊100 q⌋` and `t/d` is twice the
fractional part of `100 q`). -/
def roundPercentHalfEven (q : ℚ) : ℤ :=
  let n : ℤ := 100 * q.num
  let d : ℤ := Int.ofNat q.den
  let f : ℤ := Int.fdiv n d
  let t : ℤ := 2 * (n - f * d)
  if t < d then f
  else if d < t then f + 1
  else if f % 2 = 0 then f else f + 1

/-- Python `f"{x:.0%}"` for a numeric `x`: multiply by 100, round to zero
decimal places, append `%`. -/
def formatPercent (q : ℚ) : String :=
  toString (roundPercentHalfEven q) ++ "%"

/-- Python `f"{confidence:.0%}"` on an arbitrary JSON value: numbers are
formatted as percentages, booleans coerce to 0/1 (`bool` is an `int`
subclass), and every other value raises `TypeError` — modelled as
`none`. -/
def confFmt : Json → Option String
  | .num q => some (formatPercent q)
  | .bool b => some (formatPercent (if b then 1 else 0))
  | _ => none

/-- One rendered widget produced by `render_result`. -/
inductive RenderItem : Type where
  /-- `st.success(msg)` — positive indicator. -/
  | success : String → RenderItem
  /-- `st.warning(msg)` — negative indicator. -/
  | warning : String → RenderItem
  /-- `st.metric(label, value)` with a formatted string value. -/
  | metricStr : String → String → RenderItem
  /-- `st.metric(label, value)` with the raw JSON value. -/
  | metricVal : String → Json → RenderItem
  /-- `st.info(f"**Analysis**: {reasoning}")`. -/
  | infoAnalysis : Json → RenderItem
  /-- `st.info(f"**Reason**: {reason}")`. -/
  | infoReason : Json → RenderItem
  /-- `st.caption(f"🤖 AWS Bedrock Claude used (Stage: {stage})")`. -/
  | captionBedrock : Json → RenderItem
  /-- `st.caption(f"⚡ Pre-filter/Rule-based classification (Stage: {stage})")`. -/
  | captionRule : Json → RenderItem
  /-- `st.caption(f"🔍 Filtered by: {filter_name}")`. -/
  | captionFilter : Json → RenderItem
  /-- `st.caption(f"Processing stage: {stage}")`. -/
  | captionStage : Json → RenderItem

/-- `render_result(result)` from `src/pages/1_Demo.py`.  Returns the
sequence of rendered widgets, or `none` when the Python code raises
(`f"{confidence:.0%}"` on a non-numeric, non-boolean confidence value). -/
def render_result (r : RDict) : Option (List RenderItem) :=
  if truthy (jget r "qualified") then
    match confFmt (jgetD r "confidence" (Json.num 0)) with
    | none => none
    | some confStr =>
      some ([RenderItem.success "✅ **M&A Transaction Detected**",
             RenderItem.metricStr "Confidence" confStr,
             RenderItem.metricVal "Transaction Type" (jgetD r "theme" (Json.str "N/A"))]
            ++ (match jget r "reasoning" with
                | some v => if truthy (some v) then [RenderItem.infoAnalysis v] else []
                | none => [])
            ++ [if truthy (jget r "bedrock_called") then
                  RenderItem.captionBedrock (jgetD r "stage" (Json.str "unknown"))
                else
                  RenderItem.captionRule (jgetD r "stage" (Json.str "unknown"))])
  else
    some ([RenderItem.warning "❌ **Not an M&A Transaction**",
           RenderItem.infoReason (jgetD r "reason" (Json.str "Does not meet M&A criteria"))]
          ++ (match jget r "filter" with
              | some v => if truthy (some v) then [RenderItem.captionFilter v] else []
              | none => [])
          ++ [RenderItem.captionStage (jgetD r "stage" (Json.str "unknown"))])

/-- An outbound HTTP POST request as built by the client. -/
structure Request : Type where
  url : String
  body : Json
  headers : List (String × String)
  timeout : ℕ

/-- Outcome of `requests.post`: a response (status, raw text, and what
`response.json()` would yield — `Except.error e` when parsing raises,
carrying `str(e)`), a `requests.exceptions.Timeout`, or any other
exception carrying `str(e)`. -/
inductive HttpOutcome : Type where
  | response : ℕ → String → Except String Json → HttpOutcome
  | timeout : HttpOutcome
  | exn : String → HttpOutcome

/-- What one call to a client function produced: the returned value
(`None` or a parsed JSON value), the `st.error` messages displayed, and
the outbound requests issued. -/
structure ClientResult : Type where
  result : Option Json
  errors : List String
  requests : List Request

/-- `API_ENDPOINT = st.secrets.get("API_ENDPOINT", "https://…")`. -/
def API_ENDPOINT (secrets : String → Option String) : String :=
  (secrets "API_ENDPOINT").getD
    "https://b6svh4pxaw2nr5pr3ndcbnhche0pbtcl.lambda-url.us-east-1.on.aws/"

/-- The request built by `classify_text`: JSON body with `title` and
`text`, JSON content type, 35-second timeout. -/
def classify_text_request (secrets : String → Option String)
    (title text : String) : Request :=
  { url := API_ENDPOINT secrets
    body := Json.obj [("title", Json.str title), ("text", Json.str text)]
    headers := [("Content-Type", "application/json")]
    timeout := 35 }

/-- `classify_text(title, text)` from `src/pages/1_Demo.py`:
status 200 → return `response.json()` (a raised JSON-decode error falls
into the generic handler); other status → display
`API Error: {status}` and the raw body, return `None`; timeout →
display the timeout message, return `None`; any other exception →
display `API call failed: {e}`, return `None`. -/
def classify_text (net : Request → HttpOutcome)
    (secrets : String → Option String) (title text : String) : ClientResult :=
  match net (classify_text_request secrets title text) with
  | .response 200 _ (.ok j) =>
      ⟨some j, [], [classify_text_request secrets title text]⟩
  | .response 200 _ (.error e) =>
      ⟨none, ["API call failed: " ++ e], [classify_text_request secrets title text]⟩
  | .response code body _ =>
      ⟨none, ["API Error: " ++ toString code, body], [classify_text_request secrets title text]⟩
  | .timeout =>
      ⟨none, ["Request timed out. The document may be too complex."],
       [classify_text_request secrets title text]⟩
  | .exn e =>
      ⟨none, ["API call failed: " ++ e], [classify_text_request secrets title text]⟩

/-- The base64 alphabet character for a 6-bit value. -/
def b64char (n : ℕ) : Char :=
  "ABCDEFGHIJKLMNOPQRSTUVWXYZabcdefghijklmnopqrstuvwxyz0123456789+/".toList.getD n 'A'

/-- Standard base64 encoding of a byte sequence
(`base64.b64encode(bytes).decode('utf-8')`). -/
def b64encode : List ℕ → String
  | [] => ""
  | [a] =>
      String.mk [b64char (a / 4), b64char (a % 4 * 16), '=', '=']
  | [a, b] =>
      String.mk [b64char (a / 4), b64char (a % 4 * 16 + b / 16),
                 b64char (b % 16 * 4), '=']
  | a :: b :: c :: rest =>
      String.mk [b64char (a / 4), b64char (a % 4 * 16 + b / 16),
                 b64char (b % 16 * 4 + c / 64), b64char (c % 64)]
      ++ b64encode rest

/-- The uploaded file handle: its bytes and its current read position
(`read()` consumes from `pos` to the end and leaves `pos` there;
`seek(0)` resets `pos`). -/
structure FileState : Type where
  contents : List ℕ
  pos : ℕ
  deriving DecidableEq

/-- The request built by `classify_pdf`, together with the file state
after `pdf_file.read()` and `pdf_file.seek(0)`: body with `title` and
`pdf_base64`, JSON content type, 35-second timeout. -/
def classify_pdf_request (secrets : String → Option String)
    (title : String) (f : FileState) : Request × FileState :=
  let pdf_bytes := f.contents.drop f.pos
  let pdf_base64 := b64encode pdf_bytes
  let afterRead : FileState := { f with pos := f.contents.length }
  let afterSeek : FileState := { afterRead with pos := 0 }
  ({ url := API_ENDPOINT secrets
     body := Json.obj [("title", Json.str title), ("pdf_base64", Json.str pdf_base64)]
     headers := [("Content-Type", "application/json")]
     timeout := 35 },
   afterSeek)

/-- `classify_pdf(title, pdf_file)` from `src/pages/1_Demo.py`: read the
file, base64-encode it, reset the read position, then POST; the outcome
mapping mirrors `classify_text` but with PDF-specific timeout and
generic-failure messages. -/
def classify_pdf (net : Request → HttpOutcome)
    (secrets : String → Option String) (title : String) (f : FileState) :
    ClientResult × FileState :=
  let req := (classify_pdf_request secrets title f).1
  let f2 := (classify_pdf_request secrets title f).2
  match net req with
  | .response 200 _ (.ok j) => (⟨some j, [], [req]⟩, f2)
  | .response 200 _ (.error e) =>
      (⟨none, ["PDF processing failed: " ++ e], [req]⟩, f2)
  | .response code body _ =>
      (⟨none, ["API Error: " ++ toString code, body], [req]⟩, f2)
  | .timeout =>
      (⟨none, ["Request timed out. The PDF may be too large or complex."], [req]⟩, f2)
  | .exn e =>
      (⟨none, ["PDF processing failed: " ++ e], [req]⟩, f2)

/-- The Text Input tab's submit handler (`src/pages/1_Demo.py`, Tab 2):
`if not title_text or not text_input:` show an inline error and issue no
request, else call `classify_text`.  The boolean records whether
`classify_text` was invoked. -/
def submit_text (net : Request → HttpOutcome)
    (secrets : String → Option String) (title text : String) :
    Bool × ClientResult :=
  if title = "" || text = "" then
    (false, ⟨none, ["Please provide both title and text"], []⟩)
  else
    (true, classify_text net secrets title text)

/-- The PDF Upload tab's submit handler (`src/pages/1_Demo.py`, Tab 3):
`if not title_pdf:` inline error; `elif not uploaded_file:` inline
error; else call `classify_pdf`.  The boolean records whether
`classify_pdf` was invoked. -/
def submit_pdf (net : Request → HttpOutcome)
    (secrets : String → Option String) (title : String)
    (file : Option FileState) : (Bool × ClientResult) × Option FileState :=
  if title = "" then
    ((false, ⟨none, ["Please provide an announcement title"], []⟩), file)
  else
    match file with
    | none => ((false, ⟨none, ["Please upload a PDF file"], []⟩), none)
    | some f =>
        let r := classify_pdf net secrets title f
        ((true, r.1), some r.2)

/-- The renderer example from the spec: a qualified result with 87%
confidence and theme LBO, and nothing else. -/
def exampleQualified : RDict :=
  [("qualified", Json.bool true), ("confidence", Json.num (mkRat 87 100)),
   ("theme", Json.str "LBO")]

/-- The widgets rendered for `exampleQualified`. -/
def exampleQualifiedItems : List RenderItem :=
  [RenderItem.success "✅ **M&A Transaction Detected**",
   RenderItem.metricStr "Confidence" "87%",
   RenderItem.metricVal "Transaction Type" (Json.str "LBO"),
   RenderItem.captionRule (Json.str "unknown")]

/-- The rejection example from the spec: a non-qualified result with a
reason and a filter name. -/
def exampleRejected : RDict :=
  [("qualified", Json.bool false),
   ("reason", Json.str "Deal size below threshold"),
   ("filter", Json.str "min_deal_size")]

/-- The widgets rendered for `exampleRejected`. -/
def exampleRejectedItems : List RenderItem :=
  [RenderItem.warning "❌ **Not an M&A Transaction**",
   RenderItem.infoReason (Json.str "Deal size below threshold"),
   RenderItem.captionFilter (Json.str "min_deal_size"),
   RenderItem.captionStage (Json.str "unknown")]


/-- C1: for every call to `classify_text`, an HTTP 200 response whose
body parses as JSON `j` yields the result `j` with no error displayed;
any other status yields no result (`None`) and displays the status code
and the raw response body verbatim. -/
theorem classify_text_status_mapping (net : Request → HttpOutcome)
    (secrets : String → Option String) (title text body : String) (j : Json) :
    (net (classify_text_request secrets title text) =
        HttpOutcome.response 200 body (Except.ok j) →
      classify_text net secrets title text =
        ⟨some j, [], [classify_text_request secrets title text]⟩) ∧
    (∀ (code : ℕ) (b : String) (js : Except String Json), code ≠ 200 →
      net (classify_text_request secrets title text) =
        HttpOutcome.response code b js →
      classify_text net secrets title text =
        ⟨none, ["API Error: " ++ toString code, b],
         [classify_text_request secrets title text]⟩) := by
  constructor
  · intro h
    unfold classify_text
    rw [h]
  · intro code b js hcode h
    unfold classify_text
    rw [h]
    split <;> simp_all

/-- Witness for C1: concrete 200 and 500 responses. -/
theorem classify_text_status_mapping_witness :
    classify_text (fun _ => HttpOutcome.response 200 "{}" (Except.ok (Json.obj [])))
        (fun _ => none) "t" "x" =
      ⟨some (Json.obj []), [], [classify_text_request (fun _ => none) "t" "x"]⟩ ∧
    classify_text (fun _ => HttpOutcome.response 500 "internal error" (Except.error "err"))
        (fun _ => none) "t" "x" =
      ⟨none, ["API Error: " ++ toString (500 : ℕ), "internal error"],
       [classify_text_request (fun _ => none) "t" "x"]⟩ :=
  ⟨(classify_text_status_mapping
      (fun _ => HttpOutcome.response 200 "{}" (Except.ok (Json.obj [])))
      (fun _ => none) "t" "x" "{}" (Json.obj [])).1 rfl,
   (classify_text_status_mapping
      (fun _ => HttpOutcome.response 500 "internal error" (Except.error "err"))
      (fun _ => none) "t" "x" "{}" (Json.obj [])).2
     500 "internal error" (Except.error "err") (by decide) rfl⟩

/-- C2: the request built by `classify_text` carries a 35-second
timeout; on a timeout the function returns no result and displays the
timeout-specific message, which differs from the generic
transport-failure message `API call failed: {e}` for every cause `e`. -/
theorem classify_text_timeout_contract (net : Request → HttpOutcome)
    (secrets : String → Option String) (title text : String) :
    (classify_text_request secrets title text).timeout = 35 ∧
    (net (classify_text_request secrets title text) = HttpOutcome.timeout →
      classify_text net secrets title text =
        ⟨none, ["Request timed out. The document may be too complex."],
         [classify_text_request secrets title text]⟩) ∧
    ∀ e : String,
      "Request timed out. The document may be too complex." ≠
        "API call failed: " ++ e := by
  refine ⟨rfl, ?_, ?_⟩
  · intro h
    unfold classify_text
    rw [h]
  · intro e h
    obtain ⟨ed⟩ := e
    have h2 := congrArg String.data h
    simp [String.data] at h2

/-- Witness for C2: a concrete timed-out request and a concrete cause. -/
theorem classify_text_timeout_contract_witness :
    classify_text (fun _ => HttpOutcome.timeout) (fun _ => none) "t" "x" =
      ⟨none, ["Request timed out. The document may be too complex."],
       [classify_text_request (fun _ => none) "t" "x"]⟩ ∧
    "Request timed out. The document may be too complex." ≠
      "API call failed: " ++ "boom" :=
  ⟨(classify_text_timeout_contract (fun _ => HttpOutcome.timeout)
      (fun _ => none) "t" "x").2.1 rfl,
   (classify_text_timeout_contract (fun _ => HttpOutcome.timeout)
      (fun _ => none) "t" "x").2.2 "boom"⟩

/-- Counterexample for C3: on the same timed-out request,
`classify_text` and `classify_pdf` display different error messages, so
the two functions do not differ only in the payload they send. -/
theorem classify_pdf_text_message_counterexample :
    (classify_text (fun _ => HttpOutcome.timeout) (fun _ => none) "t" "x").errors =
      ["Request timed out. The document may be too complex."] ∧
    ((classify_pdf (fun _ => HttpOutcome.timeout) (fun _ => none) "t"
        ⟨[1], 0⟩).1).errors =
      ["Request timed out. The PDF may be too large or complex."] ∧
    (["Request timed out. The document may be too complex."] : List String) ≠
      ["Request timed out. The PDF may be too large or complex."] :=
  ⟨rfl, rfl, by decide⟩

/-- C3 (amended): `classify_pdf` uses the same endpoint, headers and
35-second timeout as `classify_text`, sends a `pdf_base64` payload in
place of the `text` payload, and maps every transport outcome to the
same returned value — identical 200 and non-200 handling, including
identical non-200 error messages — but its timeout and generic-failure
messages use PDF-specific wording. -/
theorem classify_pdf_matches_text_contract (net : Request → HttpOutcome)
    (secrets : String → Option String) (title text : String) (f : FileState)
    (o : HttpOutcome)
    (hT : net (classify_text_request secrets title text) = o)
    (hP : net ((classify_pdf_request secrets title f).1) = o) :
    (classify_text_request secrets title text).url =
      ((classify_pdf_request secrets title f).1).url ∧
    (classify_text_request secrets title text).headers =
      ((classify_pdf_request secrets title f).1).headers ∧
    (classify_text_request secrets title text).timeout =
      ((classify_pdf_request secrets title f).1).timeout ∧
    (classify_text_request secrets title text).body =
      Json.obj [("title", Json.str title), ("text", Json.str text)] ∧
    ((classify_pdf_request secrets title f).1).body =
      Json.obj [("title", Json.str title),
        ("pdf_base64", Json.str (b64encode (f.contents.drop f.pos)))] ∧
    (classify_text net secrets title text).result =
      ((classify_pdf net secrets title f).1).result ∧
    (∀ (code : ℕ) (b : String) (js : Except String Json),
      o = HttpOutcome.response code b js → code ≠ 200 →
      (classify_text net secrets title text).errors =
        ((classify_pdf net secrets title f).1).errors) ∧
    (o = HttpOutcome.timeout →
      (classify_text net secrets title text).errors =
        ["Request timed out. The document may be too complex."] ∧
      ((classify_pdf net secrets title f).1).errors =
        ["Request timed out. The PDF may be too large or complex."]) ∧
    (∀ e : String, o = HttpOutcome.exn e →
      (classify_text net secrets title text).errors =
        ["API call failed: " ++ e] ∧
      ((classify_pdf net secrets title f).1).errors =
        ["PDF processing failed: " ++ e]) := by
  refine ⟨rfl, rfl, rfl, rfl, rfl, ?_, ?_, ?_, ?_⟩
  · simp only [classify_text, classify_pdf]
    rw [hT, hP]
    cases o with
    | response code b js =>
        split <;> simp_all
    | timeout => rfl
    | exn e => rfl
  · intro code b js ho hc
    subst ho
    simp only [classify_text, classify_pdf]
    rw [hT, hP]
    split <;> simp_all
  · intro ho
    subst ho
    simp only [classify_text, classify_pdf]
    rw [hT, hP]
    exact ⟨rfl, rfl⟩
  · intro e ho
    subst ho
    simp only [classify_text, classify_pdf]
    rw [hT, hP]
    exact ⟨rfl, rfl⟩

/-- Witness for C3 (amended): a concrete non-200 response, a concrete
timeout and a concrete generic failure. -/
theorem classify_pdf_matches_text_contract_witness :
    ((classify_text (fun _ => HttpOutcome.response 500 "internal error"
          (Except.error "err")) (fun _ => none) "t" "x").errors =
      ((classify_pdf (fun _ => HttpOutcome.response 500 "internal error"
          (Except.error "err")) (fun _ => none) "t" ⟨[1], 0⟩).1).errors) ∧
    ((classify_text (fun _ => HttpOutcome.timeout) (fun _ => none) "t" "x").errors =
        ["Request timed out. The document may be too complex."] ∧
      ((classify_pdf (fun _ => HttpOutcome.timeout) (fun _ => none) "t"
          ⟨[1], 0⟩).1).errors =
        ["Request timed out. The PDF may be too large or complex."]) ∧
    ((classify_text (fun _ => HttpOutcome.exn "boom") (fun _ => none) "t" "x").errors =
        ["API call failed: " ++ "boom"] ∧
      ((classify_pdf (fun _ => HttpOutcome.exn "boom") (fun _ => none) "t"
          ⟨[1], 0⟩).1).errors =
        ["PDF processing failed: " ++ "boom"]) :=
  ⟨(classify_pdf_matches_text_contract
      (fun _ => HttpOutcome.response 500 "internal error" (Except.error "err"))
      (fun _ => none) "t" "x" ⟨[1], 0⟩
      (HttpOutcome.response 500 "internal error" (Except.error "err"))
      rfl rfl).2.2.2.2.2.2.1
      500 "internal error" (Except.error "err") rfl (by decide),
   (classify_pdf_matches_text_contract (fun _ => HttpOutcome.timeout)
      (fun _ => none) "t" "x" ⟨[1], 0⟩ HttpOutcome.timeout rfl rfl).2.2.2.2.2.2.2.1 rfl,
   (classify_pdf_matches_text_contract (fun _ => HttpOutcome.exn "boom")
      (fun _ => none) "t" "x" ⟨[1], 0⟩ (HttpOutcome.exn "boom")
      rfl rfl).2.2.2.2.2.2.2.2 "boom" rfl⟩

/-- The file state returned by `classify_pdf` always has its read
position reset to the start, whatever the transport outcome. -/
theorem classify_pdf_snd (net : Request → HttpOutcome)
    (secrets : String → Option String) (title : String) (f : FileState) :
    (classify_pdf net secrets title f).2 = ⟨f.contents, 0⟩ := by
  simp only [classify_pdf]
  split <;> rfl

/-- The single request issued by `classify_pdf`. -/
theorem classify_pdf_requests_eq (net : Request → HttpOutcome)
    (secrets : String → Option String) (title : String) (f : FileState) :
    (classify_pdf net secrets title f).1.requests =
      [(classify_pdf_request secrets title f).1] := by
  simp only [classify_pdf]
  split <;> rfl

/-- C4: starting from a freshly-uploaded file (read position 0), a call
to `classify_pdf` leaves the read position at 0 and the contents
untouched, whatever the transport outcome; a second call on the
returned handle therefore issues a request with a byte-identical
payload. -/
theorem classify_pdf_read_reset_idempotent (net : Request → HttpOutcome)
    (secrets : String → Option String) (title : String) (f : FileState)
    (h : f.pos = 0) :
    ((classify_pdf net secrets title f).2).pos = 0 ∧
    ((classify_pdf net secrets title f).2).contents = f.contents ∧
    ((classify_pdf net secrets title
        ((classify_pdf net secrets title f).2)).2).pos = 0 ∧
    (classify_pdf net secrets title f).1.requests =
      (classify_pdf net secrets title
        ((classify_pdf net secrets title f).2)).1.requests := by
  obtain ⟨c, p⟩ := f
  have hp : p = 0 := h
  subst hp
  simp [classify_pdf_snd]

/-- Witness for C4: a concrete three-byte file and a timed-out request. -/
theorem classify_pdf_read_reset_idempotent_witness :
    ((classify_pdf (fun _ => HttpOutcome.timeout) (fun _ => none) "t"
        ⟨[1, 2, 3], 0⟩).2).pos = 0 ∧
    ((classify_pdf (fun _ => HttpOutcome.timeout) (fun _ => none) "t"
        ⟨[1, 2, 3], 0⟩).2).contents = (⟨[1, 2, 3], 0⟩ : FileState).contents ∧
    ((classify_pdf (fun _ => HttpOutcome.timeout) (fun _ => none) "t"
        ((classify_pdf (fun _ => HttpOutcome.timeout) (fun _ => none) "t"
          ⟨[1, 2, 3], 0⟩).2)).2).pos = 0 ∧
    (classify_pdf (fun _ => HttpOutcome.timeout) (fun _ => none) "t"
        ⟨[1, 2, 3], 0⟩).1.requests =
      (classify_pdf (fun _ => HttpOutcome.timeout) (fun _ => none) "t"
        ((classify_pdf (fun _ => HttpOutcome.timeout) (fun _ => none) "t"
          ⟨[1, 2, 3], 0⟩).2)).1.requests :=
  classify_pdf_read_reset_idempotent (fun _ => HttpOutcome.timeout)
    (fun _ => none) "t" ⟨[1, 2, 3], 0⟩ rfl

/-- C5: characterization of `render_result` on every dict it renders.
When `qualified` is truthy: a positive indicator leads, confidence is
shown as a formatted percentage of the value defaulted to 0, the theme
defaults to `"N/A"`, the analysis block appears exactly when `reasoning`
is truthy (non-empty), and the closing caption is the Bedrock caption or
the pre-filter/rule caption according to `bedrock_called` (default
false), naming the stage (default `"unknown"`).  When `qualified` is
falsy: a negative indicator leads, the reason defaults to
`"Does not meet M&A criteria"`, the filter caption appears exactly when
`filter` is truthy, and the processing-stage caption names the stage. -/
theorem render_result_contract (r : RDict) (items : List RenderItem)
    (h : render_result r = some items) :
    (truthy (jget r "qualified") = true →
      items.head? = some (RenderItem.success "✅ **M&A Transaction Detected**") ∧
      (∃ cs, confFmt (jgetD r "confidence" (Json.num 0)) = some cs ∧
        RenderItem.metricStr "Confidence" cs ∈ items) ∧
      (jget r "confidence" = none →
        RenderItem.metricStr "Confidence" "0%" ∈ items) ∧
      RenderItem.metricVal "Transaction Type"
        (jgetD r "theme" (Json.str "N/A")) ∈ items ∧
      ((∃ v, RenderItem.infoAnalysis v ∈ items) ↔
        truthy (jget r "reasoning") = true) ∧
      (truthy (jget r "bedrock_called") = true →
        RenderItem.captionBedrock (jgetD r "stage" (Json.str "unknown")) ∈ items) ∧
      (truthy (jget r "bedrock_called") = false →
        RenderItem.captionRule (jgetD r "stage" (Json.str "unknown")) ∈ items)) ∧
    (truthy (jget r "qualified") = false →
      items.head? = some (RenderItem.warning "❌ **Not an M&A Transaction**") ∧
      RenderItem.infoReason
        (jgetD r "reason" (Json.str "Does not meet M&A criteria")) ∈ items ∧
      ((∃ v, RenderItem.captionFilter v ∈ items) ↔
        truthy (jget r "filter") = true) ∧
      RenderItem.captionStage (jgetD r "stage" (Json.str "unknown")) ∈ items) := by
  unfold render_result at h
  by_cases hq : truthy (jget r "qualified")
  · rw [if_pos hq] at h
    refine ⟨fun _ => ?_, fun hq' => absurd hq (by simp [hq'])⟩
    cases hc : confFmt (jgetD r "confidence" (Json.num 0)) with
    | none => rw [hc] at h; cases h
    | some cs =>
      rw [hc] at h
      obtain rfl := (Option.some.inj h).symm
      refine ⟨rfl, ⟨cs, rfl, by simp⟩, ?_, by simp, ?_, ?_, ?_⟩
      · intro hcn
        have h0 : jgetD r "confidence" (Json.num 0) = Json.num 0 := by
          simp [jgetD, hcn]
        have h1 : confFmt (Json.num 0) = some "0%" := rfl
        rw [h0, h1] at hc
        obtain rfl := Option.some.inj hc
        simp
      · constructor
        · rintro ⟨v', hv'⟩
          rcases hr : jget r "reasoning" with _ | v
          · rw [hr] at hv'
            by_cases hb : truthy (jget r "bedrock_called") <;>
              simp [hb] at hv'
          · rw [hr] at hv'
            by_cases hv : truthy (some v)
            · exact hv
            · simp only [hv, if_neg] at hv'
              by_cases hb : truthy (jget r "bedrock_called") <;>
                simp [hb] at hv'
        · intro ht
          rcases hr : jget r "reasoning" with _ | v
          · rw [hr] at ht; cases ht
          · rw [hr] at ht
            exact ⟨v, by simp [hr, ht]⟩
      · intro hb; simp [hb]
      · intro hb; simp [hb]
  · rw [if_neg hq] at h
    obtain rfl := (Option.some.inj h).symm
    refine ⟨fun hq' => absurd hq' (by simpa using hq), fun _ => ?_⟩
    refine ⟨rfl, by simp, ?_, by simp⟩
    constructor
    · rintro ⟨v', hv'⟩
      rcases hf : jget r "filter" with _ | v
      · rw [hf] at hv'
        simp at hv'
      · rw [hf] at hv'
        by_cases hv : truthy (some v)
        · exact hv
        · simp only [hv, if_neg] at hv'
          simp at hv'
    · intro ht
      rcases hf : jget r "filter" with _ | v
      · rw [hf] at ht; cases ht
      · rw [hf] at ht
        exact ⟨v, by simp [hf, ht]⟩

/-- Witness for C5: both renderer examples from the spec, rendered and
checked against the contract. -/
theorem render_result_contract_witness :
    render_result exampleQualified = some exampleQualifiedItems ∧
    render_result exampleRejected = some exampleRejectedItems ∧
    (truthy (jget exampleQualified "qualified") = true →
      exampleQualifiedItems.head? =
        some (RenderItem.success "✅ **M&A Transaction Detected**") ∧
      (∃ cs, confFmt (jgetD exampleQualified "confidence" (Json.num 0)) = some cs ∧
        RenderItem.metricStr "Confidence" cs ∈ exampleQualifiedItems) ∧
      (jget exampleQualified "confidence" = none →
        RenderItem.metricStr "Confidence" "0%" ∈ exampleQualifiedItems) ∧
      RenderItem.metricVal "Transaction Type"
        (jgetD exampleQualified "theme" (Json.str "N/A")) ∈ exampleQualifiedItems ∧
      ((∃ v, RenderItem.infoAnalysis v ∈ exampleQualifiedItems) ↔
        truthy (jget exampleQualified "reasoning") = true) ∧
      (truthy (jget exampleQualified "bedrock_called") = true →
        RenderItem.captionBedrock
          (jgetD exampleQualified "stage" (Json.str "unknown")) ∈ exampleQualifiedItems) ∧
      (truthy (jget exampleQualified "bedrock_called") = false →
        RenderItem.captionRule
          (jgetD exampleQualified "stage" (Json.str "unknown")) ∈ exampleQualifiedItems)) ∧
    (truthy (jget exampleRejected "qualified") = false →
      exampleRejectedItems.head? =
        some (RenderItem.warning "❌ **Not an M&A Transaction**") ∧
      RenderItem.infoReason
        (jgetD exampleRejected "reason" (Json.str "Does not meet M&A criteria"))
        ∈ exampleRejectedItems ∧
      ((∃ v, RenderItem.captionFilter v ∈ exampleRejectedItems) ↔
        truthy (jget exampleRejected "filter") = true) ∧
      RenderItem.captionStage
        (jgetD exampleRejected "stage" (Json.str "unknown")) ∈ exampleRejectedItems) :=
  ⟨rfl, rfl,
   (render_result_contract exampleQualified exampleQualifiedItems rfl).1,
   (render_result_contract exampleRejected exampleRejectedItems rfl).2⟩

/-- Counterexample for C6: `render_result` is not total on every input
dict — a truthy `qualified` with a string-valued `confidence` makes
`f"{confidence:.0%}"` raise a `TypeError` (modelled as `none`). -/
theorem render_result_raises_counterexample :
    render_result [("qualified", Json.bool true),
      ("confidence", Json.str "high")] = none := rfl

/-- C6 (amended): `render_result` is deterministic, and it terminates
without raising on every input dict whose defaulted confidence value
formats as a percentage (in particular whenever `confidence` is absent,
numeric or boolean); a non-numeric `confidence` under a truthy
`qualified` is the one raising input. -/
theorem render_result_total_deterministic (r : RDict)
    (h : truthy (jget r "qualified") = true →
      (confFmt (jgetD r "confidence" (Json.num 0))).isSome = true) :
    (render_result r).isSome = true ∧ render_result r = render_result r := by
  refine ⟨?_, rfl⟩
  unfold render_result
  by_cases hq : truthy (jget r "qualified")
  · have hs := h hq
    rw [if_pos hq]
    cases hc : confFmt (jgetD r "confidence" (Json.num 0)) with
    | none => rw [hc] at hs; simp at hs
    | some cs => simp
  · rw [if_neg hq]
    simp

/-- Witness for C6 (amended): a dict with `qualified` set and no
confidence field renders (the default 0 formats). -/
theorem render_result_total_deterministic_witness :
    (truthy (jget [("qualified", Json.bool true)] "qualified") = true →
      (confFmt (jgetD [("qualified", Json.bool true)] "confidence"
        (Json.num 0))).isSome = true) ∧
    ((render_result [("qualified", Json.bool true)]).isSome = true ∧
      render_result [("qualified", Json.bool true)] =
        render_result [("qualified", Json.bool true)]) :=
  ⟨fun _ => rfl,
   render_result_total_deterministic [("qualified", Json.bool true)] (fun _ => rfl)⟩

/-- Counterexample for C7: a 200 response whose body parses to the
top-level number 5 is returned as the result — not `None` — with no
visible error, and it is truthy, so the page hands it to the renderer. -/
theorem classify_text_nonenvelope_counterexample :
    (classify_text (fun _ => HttpOutcome.response 200 "5" (Except.ok (Json.num 5)))
        (fun _ => none) "t" "x").result = some (Json.num 5) ∧
    (classify_text (fun _ => HttpOutcome.response 200 "5" (Except.ok (Json.num 5)))
        (fun _ => none) "t" "x").errors = [] ∧
    (Json.num 5).isObj = false ∧
    truthy (some (Json.num 5)) = true :=
  ⟨rfl, rfl, rfl, by decide⟩

/-- C7 (amended): on HTTP 200 with a body parsing as JSON value `j`,
`classify_text` returns `j` as the result whatever its top-level shape,
surfacing no error; non-object shapes are not rejected. -/
theorem classify_text_returns_any_json_shape (net : Request → HttpOutcome)
    (secrets : String → Option String) (title text body : String) (j : Json)
    (h : net (classify_text_request secrets title text) =
      HttpOutcome.response 200 body (Except.ok j)) :
    classify_text net secrets title text =
      ⟨some j, [], [classify_text_request secrets title text]⟩ := by
  unfold classify_text
  rw [h]

/-- Witness for C7 (amended): a 200 response parsing to a top-level
empty array. -/
theorem classify_text_returns_any_json_shape_witness :
    classify_text (fun _ => HttpOutcome.response 200 "[]" (Except.ok (Json.arr [])))
        (fun _ => none) "t" "x" =
      ⟨some (Json.arr []), [], [classify_text_request (fun _ => none) "t" "x"]⟩ :=
  classify_text_returns_any_json_shape
    (fun _ => HttpOutcome.response 200 "[]" (Except.ok (Json.arr [])))
    (fun _ => none) "t" "x" "[]" (Json.arr []) rfl

/-- Counterexample for C8: a 200 response whose body parses to the
top-level string "x" makes `classify_text` return a value that is
neither a dict nor `None`. -/
theorem classify_text_nondict_counterexample :
    (classify_text
        (fun _ => HttpOutcome.response 200 "\"x\"" (Except.ok (Json.str "x")))
        (fun _ => none) "t" "y").result = some (Json.str "x") ∧
    (Json.str "x").isObj = false ∧
    some (Json.str "x") ≠ (none : Option Json) :=
  ⟨rfl, rfl, by simp⟩

/-- C8 (amended): for every transport outcome, `classify_text` and
`classify_pdf` return a value — no exception escapes to the caller: the
parsed JSON value on a 200 response with parseable body, and the
sentinel `None` in every other case, `None` being the only failure
channel. -/
theorem classify_no_exception_none_failure (net : Request → HttpOutcome)
    (secrets : String → Option String) (title text : String) (f : FileState) :
    ((∀ (body : String) (j : Json),
        net (classify_text_request secrets title text) =
          HttpOutcome.response 200 body (Except.ok j) →
        (classify_text net secrets title text).result = some j) ∧
      ((∀ (body : String) (j : Json),
          net (classify_text_request secrets title text) ≠
            HttpOutcome.response 200 body (Except.ok j)) →
        (classify_text net secrets title text).result = none)) ∧
    ((∀ (body : String) (j : Json),
        net ((classify_pdf_request secrets title f).1) =
          HttpOutcome.response 200 body (Except.ok j) →
        ((classify_pdf net secrets title f).1).result = some j) ∧
      ((∀ (body : String) (j : Json),
          net ((classify_pdf_request secrets title f).1) ≠
            HttpOutcome.response 200 body (Except.ok j)) →
        ((classify_pdf net secrets title f).1).result = none)) := by
  refine ⟨⟨?_, ?_⟩, ⟨?_, ?_⟩⟩
  · intro body j h
    unfold classify_text
    rw [h]
  · intro hne
    unfold classify_text
    split <;> simp_all
  · intro body j h
    simp only [classify_pdf]
    rw [h]
  · intro hne
    simp only [classify_pdf]
    split <;> simp_all

/-- Witness for C8 (amended): a 200 response and a timeout, for both
client functions. -/
theorem classify_no_exception_none_failure_witness :
    (classify_text (fun _ => HttpOutcome.response 200 "{}" (Except.ok (Json.obj [])))
        (fun _ => none) "a" "b").result = some (Json.obj []) ∧
    (classify_text (fun _ => HttpOutcome.timeout) (fun _ => none) "a" "b").result
      = none ∧
    ((classify_pdf (fun _ => HttpOutcome.timeout) (fun _ => none) "a"
        ⟨[2], 0⟩).1).result = none :=
  ⟨(classify_no_exception_none_failure
      (fun _ => HttpOutcome.response 200 "{}" (Except.ok (Json.obj [])))
      (fun _ => none) "a" "b" ⟨[2], 0⟩).1.1 "{}" (Json.obj []) rfl,
   (classify_no_exception_none_failure (fun _ => HttpOutcome.timeout)
      (fun _ => none) "a" "b" ⟨[2], 0⟩).1.2 (fun _ _ h => nomatch h),
   (classify_no_exception_none_failure (fun _ => HttpOutcome.timeout)
      (fun _ => none) "a" "b" ⟨[2], 0⟩).2.2 (fun _ _ h => nomatch h)⟩

/-- C9: a missing title or text on text submission, and a missing title
or missing file on PDF submission, is caught before any network call:
the handler shows the inline error, issues no request, and never invokes
the client function (the invoked flag is `false` and the request list is
empty). -/
theorem submit_validation_no_request (net : Request → HttpOutcome)
    (secrets : String → Option String) (title text : String)
    (file : Option FileState) :
    ((title = "" ∨ text = "") →
      submit_text net secrets title text =
        (false, ⟨none, ["Please provide both title and text"], []⟩)) ∧
    (title = "" →
      submit_pdf net secrets title file =
        ((false, ⟨none, ["Please provide an announcement title"], []⟩), file)) ∧
    (title ≠ "" → file = none →
      submit_pdf net secrets title file =
        ((false, ⟨none, ["Please upload a PDF file"], []⟩), none)) := by
  refine ⟨?_, ?_, ?_⟩
  · intro h
    unfold submit_text
    rcases h with h | h <;> simp [h]
  · intro h
    unfold submit_pdf
    simp [h]
  · intro ht hf
    subst hf
    unfold submit_pdf
    rw [if_neg ht]

/-- Witness for C9: empty title on text submission, empty title on PDF
submission, and missing file on PDF submission. -/
theorem submit_validation_no_request_witness :
    (("" : String) = "" ∨ ("x" : String) = "") ∧
    submit_text (fun _ => HttpOutcome.timeout) (fun _ => none) "" "x" =
      (false, ⟨none, ["Please provide both title and text"], []⟩) ∧
    submit_pdf (fun _ => HttpOutcome.timeout) (fun _ => none) "" (some ⟨[1], 0⟩) =
      ((false, ⟨none, ["Please provide an announcement title"], []⟩),
        some ⟨[1], 0⟩) ∧
    submit_pdf (fun _ => HttpOutcome.timeout) (fun _ => none) "t" none =
      ((false, ⟨none, ["Please upload a PDF file"], []⟩), none) :=
  ⟨Or.inl rfl,
   (submit_validation_no_request (fun _ => HttpOutcome.timeout)
      (fun _ => none) "" "x" (some ⟨[1], 0⟩)).1 (Or.inl rfl),
   (submit_validation_no_request (fun _ => HttpOutcome.timeout)
      (fun _ => none) "" "x" (some ⟨[1], 0⟩)).2.1 rfl,
   (submit_validation_no_request (fun _ => HttpOutcome.timeout)
      (fun _ => none) "t" "x" none).2.2 (by decide) rfl⟩
